import Mathlib

/-!
Verification of the Handy-Recon OSINT pipeline (src/Handy-Recon.py).

The Python source is shallowly embedded: every method of `OSINTSystem`
becomes a pure Lean function. Nondeterministic inputs of the code —
the network (transport results of `session.get`), the random module
(`random.uniform`, `random.randint`, `random.choice`, `random.sample`),
wall-clock timestamps, and abnormal task termination — are passed in as
explicit parameters, so each Lean function computes exactly what the
corresponding Python function computes once those environmental inputs
are fixed. Python `dict` values whose key set varies between code paths
(the probe-outcome dicts) are embedded as structures with `Option`
fields, `none` meaning "key absent"; dicts built by iterating a fixed
key set become association lists in insertion order. Python exceptions
crossing a function boundary are embedded with `Except String`.
-/

namespace HandyRecon

/-- `startsWithL needle hay` : `hay` begins with `needle` (on character lists). -/
def startsWithL : List Char → List Char → Bool
  | [], _ => true
  | _ :: _, [] => false
  | a :: as, b :: bs => a == b && startsWithL as bs

/-- Substring containment on character lists; embeds Python's `sub in s`. -/
def containsSub (needle : List Char) : List Char → Bool
  | [] => startsWithL needle []
  | c :: rest => startsWithL needle (c :: rest) || containsSub needle rest

/-- Python's `sub in s` membership test for strings. -/
def hasSub (sub s : String) : Bool :=
  containsSub sub.data s.data

/-- Python's `sum(c.isdigit() for c in username)`. -/
def countDigits (s : String) : Nat :=
  (s.data.filter Char.isDigit).length

/-- Python's `url.format(username)`: substitute the username into the one
substitution slot of the template. -/
def pyFormat (template username : String) : String :=
  template.replace "\x7b\x7d" username

/-- The configured platform set of `OSINTSystem.__init__` (name, url template),
in the dict's insertion order. -/
def platforms : List (String × String) :=
  [("github", "https://github.com/\x7b\x7d"),
   ("twitter", "https://twitter.com/\x7b\x7d"),
   ("instagram", "https://instagram.com/\x7b\x7d"),
   ("reddit", "https://reddit.com/user/\x7b\x7d"),
   ("linkedin", "https://linkedin.com/in/\x7b\x7d")]

/-- What `self.session.get(url, ...)` delivers to `check_platform`: either a
received HTTP response (status code and final URL) or a transport-level
exception carrying a message (`str(e)`). -/
inductive TransportResult where
  | response (status : Nat) (url : String)
  | exn (msg : String)
deriving Repr, DecidableEq

/-- The per-platform outcome dict. The key set of the Python dict differs
between the branches of `check_platform` and the synthesized entry of
`muscle_scan`, so every key that is ever absent is an `Option` field
(`none` = key absent). -/
structure ProbeOutcome where
  status : String
  status_code : Option Nat := none
  url : Option String := none
  platform : Option String := none
  error : Option String := none
deriving Repr, DecidableEq

/-- `OSINTSystem.check_platform` (lines 92–103): a received response with
status 200 maps to `found`, any other received status to `not_found`, and
any exception is caught and converted to a `status = error` dict carrying
`str(e)`. Total by construction: it never lets an exception escape. -/
def check_platform (platform : String) (tr : TransportResult) : ProbeOutcome :=
  match tr with
  | TransportResult.response st u =>
      { status := if st = 200 then "found" else "not_found",
        status_code := some st,
        url := some u,
        platform := some platform }
  | TransportResult.exn e =>
      { status := "error", error := some e, platform := some platform }

/-- The value `asyncio.gather(*tasks, return_exceptions=True)` delivers for
one probe task: either the task's returned outcome dict, or the exception
object (its `str(...)` rendering) when the task terminated abnormally. -/
inductive ProbeResult where
  | ok (o : ProbeOutcome)
  | exn (msg : String)
deriving Repr, DecidableEq

/-- Normal execution of one probe task built in `muscle_scan`'s loop:
`check_platform(platform, url.format(username))` run against a transport
environment mapping each requested URL to its transport result. -/
def runProbeTask (transport : String → TransportResult) (username : String)
    (p : String × String) : ProbeResult :=
  ProbeResult.ok (check_platform p.1 (transport (pyFormat p.2 username)))

/-- The dict returned by `muscle_scan`. `platform_results` is the results
dict in insertion order (one insertion per configured platform). -/
structure ScanReport where
  username : String
  platform_results : List (String × ProbeOutcome)
  scan_duration : ℚ
  total_checked : Nat
deriving Repr, DecidableEq

/-- `OSINTSystem.muscle_scan` (lines 65–90): fans out one probe task per
configured platform, gathers all results (`return_exceptions=True`), then
zips platform names with results; an exception result is replaced by a
synthesized `{'status': 'error', 'error': str(result)}` entry. The fate of
each task (its outcome, or abnormal termination) is the `taskResult`
environment; `dur` is the random `scan_duration` draw. -/
def muscle_scan (username : String) (taskResult : String × String → ProbeResult)
    (dur : ℚ) (plats : List (String × String)) : ScanReport :=
  { username := username,
    platform_results := plats.map (fun p =>
      (p.1, match taskResult p with
            | ProbeResult.ok o => o
            | ProbeResult.exn e => { status := "error", error := some e })),
    scan_duration := dur,
    total_checked := plats.length }

/-- The `features` dict of `brain_analyze`. -/
structure Features where
  length : Nat
  has_digits : Bool
  has_underscore : Bool
  has_dot : Bool
deriving Repr, DecidableEq

/-- The dict returned by `brain_analyze`. -/
structure BrainData where
  pattern_type : String
  features : Features
  confidence : ℚ
  timestamp : String
deriving Repr, DecidableEq

/-- The classification branch of `brain_analyze` (lines 48–56). -/
def pattern_type_of (username : String) : String :=
  if hasSub "admin" username || hasSub "test" username || hasSub "user" username then
    "generic"
  else if username.length < 5 then
    "short"
  else if countDigits username > 2 then
    "numeric"
  else
    "personal"

/-- The `features` dict of `brain_analyze` (lines 41–46). -/
def features_of (username : String) : Features :=
  { length := username.length,
    has_digits := username.data.any Char.isDigit,
    has_underscore := hasSub "_" username,
    has_dot := hasSub "." username }

/-- `OSINTSystem.brain_analyze` (lines 34–63). `confidence` is the
`random.uniform(0.7, 0.95)` draw and `ts` the `datetime.now()` timestamp,
passed in as environmental inputs. -/
def brain_analyze (username : String) (confidence : ℚ) (ts : String) : BrainData :=
  { pattern_type := pattern_type_of username,
    features := features_of username,
    confidence := confidence,
    timestamp := ts }

/-- The `breach_data` dict of `simulate_breach_check`; a breach detail record
is (breach, date, data_compromised). -/
structure BreachData where
  breaches_found : Nat
  breach_details : List (String × String × String)
  last_checked : String
deriving Repr, DecidableEq

/-- The `social_analysis` dict of `simulate_social_analysis`. -/
structure SocialAnalysis where
  activity_level : String
  account_age : Nat
  influence_score : ℚ
deriving Repr, DecidableEq

/-- The random draws consumed by `api_gather_intel` and its two helpers:
every `random.*` call of lines 116, 126–127, 134–136 becomes one field. -/
structure RandDraws where
  breaches_found : Nat
  breach_details : List (String × String × String)
  activity_level : String
  account_age : Nat
  influence_score : ℚ
  reputation_score : ℚ
deriving Repr, DecidableEq

/-- `OSINTSystem.simulate_breach_check` (lines 119–129): all returned values
are random draws or the current timestamp; the username is unused. -/
def simulate_breach_check (username : String) (r : RandDraws) (now : String) :
    BreachData :=
  { breaches_found := r.breaches_found,
    breach_details := r.breach_details,
    last_checked := now }

/-- `OSINTSystem.simulate_social_analysis` (lines 131–137): all returned
values are random draws; the username is unused. -/
def simulate_social_analysis (username : String) (r : RandDraws) :
    SocialAnalysis :=
  { activity_level := r.activity_level,
    account_age := r.account_age,
    influence_score := r.influence_score }

/-- The dict returned by `api_gather_intel`. -/
structure ApiIntel where
  username : String
  breach_data : BreachData
  social_analysis : SocialAnalysis
  reputation_score : ℚ
deriving Repr, DecidableEq

/-- `OSINTSystem.api_gather_intel` (lines 105–117): takes the scan report as
`scan_data` but builds its result only from the username, the random draws
and the clock. -/
def api_gather_intel (username : String) (scan_data : ScanReport)
    (r : RandDraws) (now : String) : ApiIntel :=
  { username := username,
    breach_data := simulate_breach_check username r now,
    social_analysis := simulate_social_analysis username r,
    reputation_score := r.reputation_score }

/-- The `risk_assessment` dict of `correlate_intelligence`. -/
structure RiskAssessment where
  score : ℚ
  level : String
  factors : List String
deriving Repr, DecidableEq

/-- The dict returned by `correlate_intelligence`. -/
structure FinalAnalysis where
  risk_assessment : RiskAssessment
  confidence : ℚ
  recommendations : List String
deriving Repr, DecidableEq

/-- `OSINTSystem.correlate_intelligence` (lines 170–195): `risk_score` is the
`random.uniform(0.0, 1.0)` draw and `conf` the `random.uniform(0.8, 0.95)`
draw; the level is the score thresholded at 0.3 and 0.7. The `*data_sources`
are collected into `all_data` but never used in the result. -/
def correlate_intelligence (username : String) (risk_score conf : ℚ) :
    FinalAnalysis :=
  { risk_assessment :=
      { score := risk_score,
        level :=
          if risk_score < 3/10 then "low"
          else if risk_score < 7/10 then "medium"
          else "high",
        factors := ["multiple_platforms", "pattern_analysis", "breach_data"] },
    confidence := conf,
    recommendations :=
      ["Monitor social media activity",
       "Check for additional aliases",
       "Verify breach exposure details"] }

/-- The dict returned by `orchestrate_investigation`. -/
structure InvestigationReport where
  operation_id : String
  username : String
  brain_analysis : BrainData
  scan_results : ScanReport
  api_intelligence : ApiIntel
  final_analysis : FinalAnalysis
  total_duration : ℚ
  timestamp : String
deriving Repr, DecidableEq

/-- `OSINTSystem.orchestrate_investigation` (lines 139–168): the four stages
run strictly sequentially; a Python exception raised by a stage propagates
out of the method unchanged (there is no try/except here), which the
embedding renders with `Except String` and its bind. Each stage is passed
in as the computation it performs at run time — `brainR` is what
`brain_analyze` delivers (its value, or the exception it raised),
`taskResult`/`dur` drive `muscle_scan` exactly as in its own embedding, and
`apiR`/`corrR` are the Intelligence and Correlation stages as functions of
the upstream data they receive. `opId`, `totalDur`, `ts` are the
clock/random environmental inputs of lines 160, 157, 167. -/
def orchestrate_investigation (username : String)
    (brainR : Except String BrainData)
    (taskResult : String × String → ProbeResult) (dur : ℚ)
    (plats : List (String × String))
    (apiR : ScanReport → Except String ApiIntel)
    (corrR : BrainData → ScanReport → ApiIntel → Except String FinalAnalysis)
    (opId : String) (totalDur : ℚ) (ts : String) :
    Except String InvestigationReport :=
  match brainR with
  | Except.error e => Except.error e
  | Except.ok brain_data =>
    match apiR (muscle_scan username taskResult dur plats) with
    | Except.error e => Except.error e
    | Except.ok api_data =>
      match corrR brain_data (muscle_scan username taskResult dur plats) api_data with
      | Except.error e => Except.error e
      | Except.ok final_analysis =>
        Except.ok
          { operation_id := opId,
            username := username,
            brain_analysis := brain_data,
            scan_results := muscle_scan username taskResult dur plats,
            api_intelligence := api_data,
            final_analysis := final_analysis,
            total_duration := totalDur,
            timestamp := ts }

/-! ## Helper lemmas -/

/-- The keys of the scan's result mapping are exactly the configured platform
names, in order. -/
theorem muscle_scan_keys (u : String) (taskResult : String × String → ProbeResult)
    (d : ℚ) (plats : List (String × String)) :
    (muscle_scan u taskResult d plats).platform_results.map Prod.fst
      = plats.map Prod.fst := by
  simp [muscle_scan, List.map_map, Function.comp_def]

/-- Constraint on the probe-task environment: each task either returns what
`check_platform` computed from some transport result, or terminates
abnormally with some exception. This is exactly the set of fates a task
created from `check_platform(platform, ...)` can have under
`asyncio.gather(..., return_exceptions=True)`. -/
def taskBehaves (taskResult : String × String → ProbeResult) : Prop :=
  ∀ p : String × String,
    (∃ tr, taskResult p = ProbeResult.ok (check_platform p.1 tr))
    ∨ (∃ e, taskResult p = ProbeResult.exn e)

/-! ## Claim theorems -/

/-- Claim C1: Scan completeness — for every username and every configured
platform set (distinct names, as in a Python dict), the `ScanReport` of
`muscle_scan` contains exactly one outcome entry per configured platform
(keys are exactly the platform names, without duplication), regardless of
how many probes error; `total_checked` equals the number of configured
platforms, and any report returned by `orchestrate_investigation` carries
that same `total_checked`. -/
theorem scan_completeness (u : String) (taskResult : String × String → ProbeResult)
    (d : ℚ) (plats : List (String × String))
    (h : (plats.map Prod.fst).Nodup) :
    (muscle_scan u taskResult d plats).platform_results.map Prod.fst = plats.map Prod.fst
    ∧ ((muscle_scan u taskResult d plats).platform_results.map Prod.fst).Nodup
    ∧ (muscle_scan u taskResult d plats).total_checked = plats.length
    ∧ ∀ (brainR : Except String BrainData) (apiR : ScanReport → Except String ApiIntel)
        (corrR : BrainData → ScanReport → ApiIntel → Except String FinalAnalysis)
        (opId : String) (td : ℚ) (ts : String) (rep : InvestigationReport),
        orchestrate_investigation u brainR taskResult d plats apiR corrR opId td ts
          = Except.ok rep →
        rep.scan_results.total_checked = plats.length := by
  refine ⟨muscle_scan_keys u taskResult d plats, ?_, rfl, ?_⟩
  · rw [muscle_scan_keys]; exact h
  · intro brainR apiR corrR opId td ts rep heq
    cases brainR with
    | error e => exact Except.noConfusion heq
    | ok b =>
      rcases hapi : apiR (muscle_scan u taskResult d plats) with e | a
      · simp only [orchestrate_investigation, hapi] at heq
        exact Except.noConfusion heq
      · rcases hcor : corrR b (muscle_scan u taskResult d plats) a with e | f
        · simp only [orchestrate_investigation, hapi, hcor] at heq
          exact Except.noConfusion heq
        · simp only [orchestrate_investigation, hapi, hcor, Except.ok.injEq] at heq
          rw [← heq]
          rfl

/-- Witness for C1, at the configured platform set with every probe task
terminating abnormally (simulated total network outage): the outcome keys
are still exactly the five platform names and `total_checked` is still the
configured count. -/
theorem scan_completeness_witness :
    ((muscle_scan "alice" (fun _ => ProbeResult.exn "netdown") 2 platforms).platform_results.map
        Prod.fst = platforms.map Prod.fst)
    ∧ (muscle_scan "alice" (fun _ => ProbeResult.exn "netdown") 2 platforms).total_checked
        = platforms.length :=
  ⟨(scan_completeness "alice" (fun _ => ProbeResult.exn "netdown") 2 platforms (by decide)).1,
   (scan_completeness "alice" (fun _ => ProbeResult.exn "netdown") 2 platforms (by decide)).2.2.1⟩

/-- Claim C2: the Platform Prober never raises past its own boundary — for
every platform, URL and transport outcome, `check_platform` returns a
`ProbeOutcome`: a received status 200 maps to `found`, any other received
status to `not_found`, and any transport-level exception to `error` with
the detail string taken from the underlying failure; the status is always
one of the three, so the caller needs no exception handling. -/
theorem check_platform_total_spec (p u e : String) (st : Nat) :
    (st = 200 →
      check_platform p (TransportResult.response st u)
        = { status := "found", status_code := some st, url := some u, platform := some p })
    ∧ (st ≠ 200 →
      check_platform p (TransportResult.response st u)
        = { status := "not_found", status_code := some st, url := some u, platform := some p })
    ∧ check_platform p (TransportResult.exn e)
        = { status := "error", error := some e, platform := some p }
    ∧ ∀ tr : TransportResult,
        (check_platform p tr).status = "found"
        ∨ (check_platform p tr).status = "not_found"
        ∨ (check_platform p tr).status = "error" := by
  refine ⟨?_, ?_, rfl, ?_⟩
  · intro h; subst h; rfl
  · intro h; simp [check_platform, h]
  · intro tr
    cases tr with
    | response st' u' =>
      by_cases h : st' = 200
      · subst h; exact Or.inl rfl
      · exact Or.inr (Or.inl (by simp [check_platform, h]))
    | exn msg => exact Or.inr (Or.inr rfl)

/-- Witness for C2: a 200 response is `found`, a 404 response is
`not_found`. -/
theorem check_platform_total_spec_witness :
    check_platform "github" (TransportResult.response 200 "https://github.com/alice")
      = { status := "found", status_code := some 200,
          url := some "https://github.com/alice", platform := some "github" }
    ∧ check_platform "github" (TransportResult.response 404 "https://github.com/alice")
      = { status := "not_found", status_code := some 404,
          url := some "https://github.com/alice", platform := some "github" } :=
  ⟨(check_platform_total_spec "github" "https://github.com/alice" "x" 200).1 rfl,
   (check_platform_total_spec "github" "https://github.com/alice" "x" 404).2.1 (by decide)⟩

/-- Claim C3: Fault absorption — if a concurrent probe task for a
configured platform terminates abnormally with exception `e`, `muscle_scan`
still records the synthesized outcome with status `error` for that
platform in its result mapping; and no probe exception propagates past the
Scan Coordinator: with the other stages succeeding,
`orchestrate_investigation` returns a complete report for any probe-task
fates whatsoever. -/
theorem scan_fault_absorption (u e : String)
    (taskResult : String × String → ProbeResult) (d : ℚ)
    (plats : List (String × String)) (p : String × String)
    (hmem : p ∈ plats) (hexn : taskResult p = ProbeResult.exn e) :
    ((p.1, ({ status := "error", error := some e } : ProbeOutcome))
        ∈ (muscle_scan u taskResult d plats).platform_results)
    ∧ ∀ (b : BrainData) (apiF : ScanReport → ApiIntel)
        (corrF : BrainData → ScanReport → ApiIntel → FinalAnalysis)
        (opId : String) (td : ℚ) (ts : String),
        orchestrate_investigation u (Except.ok b) taskResult d plats
          (fun s => Except.ok (apiF s)) (fun b s a => Except.ok (corrF b s a)) opId td ts
        = Except.ok
            { operation_id := opId, username := u, brain_analysis := b,
              scan_results := muscle_scan u taskResult d plats,
              api_intelligence := apiF (muscle_scan u taskResult d plats),
              final_analysis :=
                corrF b (muscle_scan u taskResult d plats)
                  (apiF (muscle_scan u taskResult d plats)),
              total_duration := td, timestamp := ts } := by
  constructor
  · simp only [muscle_scan]
    refine List.mem_map.mpr ⟨p, hmem, ?_⟩
    rw [hexn]
  · intro b apiF corrF opId td ts
    rfl

/-- Witness for C3: with every probe task dying with exception "boom", the
github entry of the concrete scan is the synthesized error outcome. -/
theorem scan_fault_absorption_witness :
    ("github", ({ status := "error", error := some "boom" } : ProbeOutcome))
      ∈ (muscle_scan "alice" (fun _ => ProbeResult.exn "boom") 2 platforms).platform_results :=
  (scan_fault_absorption "alice" "boom" (fun _ => ProbeResult.exn "boom") 2 platforms
    ("github", "https://github.com/\x7b\x7d") (by decide) rfl).1

/-- Claim C4: pattern classification and feature extraction are
deterministic functions of the username (independent of the confidence
draw and the timestamp), with the blocklist/short/numeric/personal
precedence; in particular "admin123" is generic, "ab" is short,
"a1b2c3d4" is numeric and "john_doe" is personal. -/
theorem pattern_classification_deterministic
    (u : String) (c1 c2 : ℚ) (t1 t2 : String) :
    ((brain_analyze u c1 t1).pattern_type = (brain_analyze u c2 t2).pattern_type
      ∧ (brain_analyze u c1 t1).features = (brain_analyze u c2 t2).features)
    ∧ (brain_analyze "admin123" c1 t1).pattern_type = "generic"
    ∧ (brain_analyze "ab" c1 t1).pattern_type = "short"
    ∧ (brain_analyze "a1b2c3d4" c1 t1).pattern_type = "numeric"
    ∧ (brain_analyze "john_doe" c1 t1).pattern_type = "personal" := by
  refine ⟨⟨rfl, rfl⟩, ?_, ?_, ?_, ?_⟩ <;> · simp only [brain_analyze]; decide

/-- Claim C5: risk level bucketing — for every score in [0,1], the level
assigned by `correlate_intelligence` is `low` exactly when score < 0.3,
`medium` exactly when 0.3 ≤ score < 0.7, `high` exactly when score ≥ 0.7;
the boundary values 0.3 and 0.7 map to `medium` and `high`. -/
theorem risk_level_bucketing (u : String) (s conf : ℚ)
    (h0 : 0 ≤ s) (h1 : s ≤ 1) :
    (((correlate_intelligence u s conf).risk_assessment.level = "low") ↔ s < 3/10)
    ∧ (((correlate_intelligence u s conf).risk_assessment.level = "medium")
        ↔ (3/10 ≤ s ∧ s < 7/10))
    ∧ (((correlate_intelligence u s conf).risk_assessment.level = "high") ↔ 7/10 ≤ s)
    ∧ (correlate_intelligence u (3/10) conf).risk_assessment.level = "medium"
    ∧ (correlate_intelligence u (7/10) conf).risk_assessment.level = "high" := by
  refine ⟨?_, ?_, ?_, by norm_num [correlate_intelligence], by norm_num [correlate_intelligence]⟩ <;>
    by_cases ha : s < 3/10 <;> by_cases hb : s < 7/10 <;>
      simp [correlate_intelligence, ha, hb] <;> linarith

/-- Witness for C5, at score 1/2: the level is `medium` and the medium
bucket condition holds. -/
theorem risk_level_bucketing_witness :
    ((correlate_intelligence "alice" (1/2) (9/10)).risk_assessment.level = "medium")
      ↔ (3/10 ≤ (1/2 : ℚ) ∧ (1/2 : ℚ) < 7/10) :=
  (risk_level_bucketing "alice" (1/2) (9/10) (by norm_num) (by norm_num)).2.1

/-- Counterexample for C6: the error with which `orchestrate_investigation`
fails does not identify the failing stage. Two runs that fail in different
stages — the Pattern Analysis stage raising "boom" in the first, the
Intelligence Gathering stage raising "boom" in the second — make the call
fail with the identical error value, the bare underlying cause "boom",
which contains no stage name; so the caller cannot tell the failing stage
from the error, refuting "fails the whole call with an error that
identifies the failing stage (stage name plus underlying cause)". -/
theorem orchestrate_error_not_stage_identified :
    (orchestrate_investigation "alice" (Except.error "boom")
        (fun _ => ProbeResult.exn "down") 2 platforms
        (fun _ => Except.error "unreached")
        (fun _ _ _ => Except.error "unreached") "op" 1 "t"
      = Except.error "boom")
    ∧ (orchestrate_investigation "alice"
        (Except.ok (brain_analyze "alice" (4/5) "t0"))
        (fun _ => ProbeResult.exn "down") 2 platforms
        (fun _ => Except.error "boom")
        (fun _ _ _ => Except.error "unreached") "op" 1 "t"
      = Except.error "boom")
    ∧ hasSub "brain" "boom" = false
    ∧ hasSub "analysis" "boom" = false
    ∧ hasSub "api" "boom" = false
    ∧ hasSub "intel" "boom" = false
    ∧ hasSub "stage" "boom" = false :=
  ⟨rfl, rfl, by decide, by decide, by decide, by decide, by decide⟩

/-- Claim C6 (amended): `orchestrate_investigation` either returns a
complete `InvestigationReport` — every field populated from its stage's
result — or fails the whole call with the underlying cause raised by the
first failing stage (without a stage name attached); it never returns a
partially populated report for a failure outside Scanning. -/
theorem orchestrate_all_or_nothing (u : String) (brainR : Except String BrainData)
    (taskResult : String × String → ProbeResult) (d : ℚ)
    (plats : List (String × String))
    (apiR : ScanReport → Except String ApiIntel)
    (corrR : BrainData → ScanReport → ApiIntel → Except String FinalAnalysis)
    (opId : String) (td : ℚ) (ts : String) :
    (∃ rep : InvestigationReport,
        orchestrate_investigation u brainR taskResult d plats apiR corrR opId td ts
          = Except.ok rep
        ∧ rep.operation_id = opId
        ∧ rep.username = u
        ∧ Except.ok rep.brain_analysis = brainR
        ∧ rep.scan_results = muscle_scan u taskResult d plats
        ∧ apiR rep.scan_results = Except.ok rep.api_intelligence
        ∧ corrR rep.brain_analysis rep.scan_results rep.api_intelligence
            = Except.ok rep.final_analysis
        ∧ rep.total_duration = td
        ∧ rep.timestamp = ts)
    ∨ (∃ e : String,
        orchestrate_investigation u brainR taskResult d plats apiR corrR opId td ts
          = Except.error e
        ∧ (brainR = Except.error e
           ∨ apiR (muscle_scan u taskResult d plats) = Except.error e
           ∨ ∃ b a, brainR = Except.ok b
               ∧ apiR (muscle_scan u taskResult d plats) = Except.ok a
               ∧ corrR b (muscle_scan u taskResult d plats) a = Except.error e)) := by
  cases brainR with
  | error e => exact Or.inr ⟨e, rfl, Or.inl rfl⟩
  | ok b =>
    rcases hapi : apiR (muscle_scan u taskResult d plats) with e | a
    · refine Or.inr ⟨e, ?_, Or.inr (Or.inl rfl)⟩
      simp only [orchestrate_investigation, hapi]
    · rcases hcor : corrR b (muscle_scan u taskResult d plats) a with e | f
      · refine Or.inr ⟨e, ?_, Or.inr (Or.inr ⟨b, a, rfl, rfl, hcor⟩)⟩
        simp only [orchestrate_investigation, hapi, hcor]
      · refine Or.inl
          ⟨{ operation_id := opId, username := u, brain_analysis := b,
             scan_results := muscle_scan u taskResult d plats,
             api_intelligence := a, final_analysis := f,
             total_duration := td, timestamp := ts },
           ?_, rfl, rfl, rfl, rfl, hapi, hcor, rfl, rfl⟩
        simp only [orchestrate_investigation, hapi, hcor]

/-- Counterexample for C7: the outcome the Scan Coordinator synthesizes
for an abnormally terminated probe task does not carry a `platform`
field — with the github probe task dying with exception "boom", the
recorded github outcome has only `status` and `error` keys and its
`platform` key is absent, refuting "every outcome entry ... carries the
platform name (a `platform` string field)". -/
theorem synthesized_outcome_lacks_platform_field :
    List.lookup "github"
        ((muscle_scan "alice" (fun _ => ProbeResult.exn "boom") 2
            platforms).platform_results)
      = some { status := "error", error := some "boom" }
    ∧ ({ status := "error", error := some "boom" } : ProbeOutcome).platform = none :=
  ⟨rfl, rfl⟩

/-- Claim C7 (amended): every outcome entry in the scan's result mapping —
for probe tasks that return a `check_platform` result or terminate
abnormally — has a status drawn from found/not_found/error; the entries
produced by `check_platform` carry the platform name in their `platform`
field, while the entries the Coordinator synthesizes for abnormally
terminated tasks have status `error` and omit the `platform` field (the
platform name appears only as the mapping key). -/
theorem probe_outcome_shape (u : String)
    (taskResult : String × String → ProbeResult) (d : ℚ)
    (plats : List (String × String)) (hb : taskBehaves taskResult) :
    ∀ entry ∈ (muscle_scan u taskResult d plats).platform_results,
      (entry.2.status = "found" ∨ entry.2.status = "not_found"
        ∨ entry.2.status = "error")
      ∧ (entry.2.platform = some entry.1
         ∨ (entry.2.platform = none ∧ entry.2.status = "error")) := by
  intro entry hentry
  simp only [muscle_scan, List.mem_map] at hentry
  obtain ⟨p, hp, rfl⟩ := hentry
  rcases hb p with ⟨tr, htr⟩ | ⟨e, he⟩
  · rw [htr]
    cases tr with
    | response st u' =>
      by_cases h200 : st = 200
      · subst h200
        exact ⟨Or.inl rfl, Or.inl rfl⟩
      · exact ⟨Or.inr (Or.inl (by simp [check_platform, h200])), Or.inl rfl⟩
    | exn msg => exact ⟨Or.inr (Or.inr rfl), Or.inl rfl⟩
  · rw [he]
    exact ⟨Or.inr (Or.inr rfl), Or.inr ⟨rfl, rfl⟩⟩

/-- Witness for C7, at the synthesized github entry of a scan in which
every probe task terminates abnormally with "boom". -/
theorem probe_outcome_shape_witness :
    (({ status := "error", error := some "boom" } : ProbeOutcome).status = "found"
      ∨ ({ status := "error", error := some "boom" } : ProbeOutcome).status = "not_found"
      ∨ ({ status := "error", error := some "boom" } : ProbeOutcome).status = "error")
    ∧ (({ status := "error", error := some "boom" } : ProbeOutcome).platform = some "github"
       ∨ (({ status := "error", error := some "boom" } : ProbeOutcome).platform = none
          ∧ ({ status := "error", error := some "boom" } : ProbeOutcome).status = "error")) :=
  probe_outcome_shape "alice" (fun _ => ProbeResult.exn "boom") 2 platforms
    (fun _ => Or.inr ⟨"boom", rfl⟩)
    ("github", { status := "error", error := some "boom" })
    (by decide)

/-- Claim C8: noninterference of the Intelligence Aggregator with the scan
stage — for a fixed username, random draws and clock, `api_gather_intel`
returns the same `ApiIntel` for any two scan reports: its output does not
depend on the `scan_data` argument. -/
theorem api_gather_intel_ignores_scan (u : String) (s1 s2 : ScanReport)
    (r : RandDraws) (now : String) :
    api_gather_intel u s1 r now = api_gather_intel u s2 r now := rfl

/-- Claim C10: the core never validates that the username is non-empty —
`orchestrate_investigation ""` runs the full pipeline (all four stages, in
order, against the configured platforms) and returns a complete report,
and its pattern profile classifies the empty string as `short` (length 0,
no blocklist substring, no digits). -/
theorem investigate_empty_username (c d td rs cf : ℚ)
    (tr : String × String → ProbeResult) (r : RandDraws)
    (ts now opId ts2 : String) :
    orchestrate_investigation "" (Except.ok (brain_analyze "" c ts)) tr d platforms
        (fun s => Except.ok (api_gather_intel "" s r now))
        (fun _ _ _ => Except.ok (correlate_intelligence "" rs cf)) opId td ts2
      = Except.ok
        { operation_id := opId, username := "",
          brain_analysis := brain_analyze "" c ts,
          scan_results := muscle_scan "" tr d platforms,
          api_intelligence := api_gather_intel "" (muscle_scan "" tr d platforms) r now,
          final_analysis := correlate_intelligence "" rs cf,
          total_duration := td, timestamp := ts2 }
    ∧ (brain_analyze "" c ts).pattern_type = "short"
    ∧ (brain_analyze "" c ts).features.length = 0
    ∧ (brain_analyze "" c ts).features.has_digits = false :=
  ⟨rfl, by simp only [brain_analyze]; decide, rfl, rfl⟩

end HandyRecon
